import Mathlib

/-!
Verification of the TalentBridge marketplace core (src/app.py) against its
natural-language specification.  The Python functions are shallowly embedded:
strings are lists of characters, Python ints are Nat/Int, Python floats that
only ever hold exact decimal values are modelled as rationals, dictionaries
with string keys are association lists in insertion order, and the one
exception boundary (rag_search) is modelled with Except.
-/

/-! ## String helpers (Python `in`, `.lower()`, substring containment) -/

def lowerL (s : List Char) : List Char := s.map Char.toLower

def prefixMatch : List Char → List Char → Bool
  | [], _ => true
  | _ :: _, [] => false
  | n :: ns, h :: hs => n == h && prefixMatch ns hs

/-- Python `needle in hay` for strings: `needle` occurs contiguously in `hay`. -/
def containsSub : List Char → List Char → Bool
  | ns, [] => ns.isEmpty
  | ns, h :: hs => prefixMatch ns (h :: hs) || containsSub ns hs

/-! ## Python numeric primitives: `round` (banker's rounding) and `int` (truncation) -/

/-- Python `round` on an exact rational value: nearest integer, halves to even. -/
def pyRound (q : ℚ) : ℤ :=
  if q - (⌊q⌋ : ℚ) < 1 / 2 then ⌊q⌋
  else if (1 : ℚ) / 2 < q - (⌊q⌋ : ℚ) then ⌊q⌋ + 1
  else if ⌊q⌋ % 2 = 0 then ⌊q⌋ else ⌊q⌋ + 1

/-- Python `int()` on a rational value: truncation toward zero. -/
def pyInt (q : ℚ) : ℤ := if 0 ≤ q then ⌊q⌋ else ⌈q⌉

theorem pyRound_abs (q : ℚ) : |(pyRound q : ℚ) - q| ≤ 1 / 2 := by
  have h0 : (⌊q⌋ : ℚ) ≤ q := Int.floor_le q
  have h1 : q < ⌊q⌋ + 1 := Int.lt_floor_add_one q
  unfold pyRound
  split_ifs with ha hb hc <;> rw [abs_le] <;> constructor <;> push_cast <;> linarith

theorem pyRound_intCast (n : ℤ) : pyRound ((n : ℚ)) = n := by
  unfold pyRound
  rw [Int.floor_intCast]
  norm_num

theorem pyRound_eq_floor_add_one (q : ℚ) (n : ℤ) (hf : ⌊q⌋ = n)
    (hr : 1 / 2 < q - (n : ℚ)) : pyRound q = n + 1 := by
  unfold pyRound
  rw [hf]
  have : ¬ (q - (n : ℚ) < 1 / 2) := by linarith
  rw [if_neg this, if_pos hr]

theorem pyInt_eq_floor (q : ℚ) (h : 0 ≤ q) : pyInt q = ⌊q⌋ := by
  unfold pyInt
  rw [if_pos h]

/-! ## Data model: provider records and query-derived filter sets -/

structure Artist where
  id : Nat
  name : List Char
  category : List Char
  location : List Char
  skills : List (List Char)
  price_min : Nat
  price_max : Nat
  rating : ℚ
  badge : List Char
  avatar : List Char
deriving DecidableEq

structure Filters where
  max_budget : Option Nat
  city : Option (List Char)
  category : Option (List Char)
deriving DecidableEq

def emptyFilters : Filters := ⟨none, none, none⟩

/-! ## Retrieval engine: `apply_filters` and `rag_search` (src/app.py lines 156-189)

`rag_search` is parametrised by the outcome of the embedding/ranking stage
(`Except.ok results` when the model and index produced an oversampled ranked
list, `Except.error` when any exception was thrown there) and by the filter
set extracted from the query text. -/

/-- One candidate survives the three advisory constraints of `apply_filters`. -/
def passesFilters (filters : Filters) (a : Artist) : Bool :=
  (match filters.max_budget with
    | some b => decide (a.price_min ≤ b)
    | none => true) &&
  (match filters.city with
    | some c => containsSub c (lowerL a.location)
    | none => true) &&
  (match filters.category with
    | some c => lowerL a.category == lowerL c
    | none => true)

def apply_filters (results : List (Artist × ℚ)) (filters : Filters) :
    List (Artist × ℚ) :=
  let out := results.filter (fun p => passesFilters filters p.1)
  if out.isEmpty then results else out

def rag_search (ranked : Except Unit (List (Artist × ℚ))) (filters : Filters)
    (artists : List Artist) (top_k : Nat) : List (Artist × ℚ) × Filters :=
  match ranked with
  | Except.ok results =>
      let filtered := (apply_filters results filters).take top_k
      (if filtered.isEmpty then results.take top_k else filtered, filters)
  | Except.error _ =>
      ((artists.take top_k).map (fun a => (a, (0.5 : ℚ))), emptyFilters)

/-- C1: for every query (any extracted filter set) and every top_k, when the
embedding/ranking stage throws, `rag_search` swallows the exception and returns
the first `top_k` catalog entries in storage order, each paired with the
sentinel score 0.5, together with an empty filter set; the retrieval path never
raises to its caller. -/
theorem c1_rag_search_degraded (filters : Filters) (artists : List Artist)
    (top_k : Nat) :
    rag_search (Except.error ()) filters artists top_k
      = ((artists.take top_k).map (fun a => (a, (0.5 : ℚ))), emptyFilters) := rfl

/-- C2: `apply_filters` keeps exactly the candidates that satisfy the budget,
city-substring and category constraints; if every candidate is eliminated the
filters are ignored; `rag_search` truncates the survivors to `top_k`; and for
`top_k ≥ 1` a non-empty ranking never yields an empty result. -/
theorem c2_apply_filters_spec (results : List (Artist × ℚ)) (filters : Filters)
    (artists : List Artist) (top_k : Nat) :
    (∀ a : Artist, passesFilters filters a = true ↔
      ((∀ b, filters.max_budget = some b → a.price_min ≤ b) ∧
       (∀ c, filters.city = some c → containsSub c (lowerL a.location) = true) ∧
       (∀ c, filters.category = some c → lowerL a.category = lowerL c))) ∧
    ((results.filter (fun p => passesFilters filters p.1)).isEmpty = true →
      apply_filters results filters = results) ∧
    ((results.filter (fun p => passesFilters filters p.1)).isEmpty = false →
      apply_filters results filters
        = results.filter (fun p => passesFilters filters p.1)) ∧
    ((rag_search (Except.ok results) filters artists top_k).1).length ≤ top_k ∧
    (results ≠ [] → 1 ≤ top_k →
      (rag_search (Except.ok results) filters artists top_k).1 ≠ []) := by
  refine ⟨?_, ?_, ?_, ?_, ?_⟩
  · intro a
    obtain ⟨mb, ci, ca⟩ := filters
    cases mb <;> cases ci <;> cases ca <;>
      simp [passesFilters, and_assoc]
  · intro h
    simp [apply_filters, h]
  · intro h
    simp [apply_filters, h]
  · simp only [rag_search]
    split
    · rw [List.length_take]
      omega
    · rw [List.length_take]
      omega
  · intro hne hk
    have hpos : 0 < results.length := List.length_pos.mpr hne
    have htake : results.take top_k ≠ [] := by
      intro h
      have := List.length_take top_k results
      rw [h] at this
      simp at this
      omega
    simp only [rag_search]
    split
    · exact htake
    · rename_i hfil
      intro hq
      rw [hq] at hfil
      simp at hfil

/-! Concrete data for the retrieval witness: one provider matching the
extracted filter `city = chicago, max_budget = 2000` and one not matching. -/

def aChi : Artist :=
  { id := 1, name := "Ava Stone".data, category := "Singer".data,
    location := "Chicago, IL".data, skills := ["jazz".data],
    price_min := 1500, price_max := 3000, rating := 5,
    badge := "Top Rated".data, avatar := "av1".data }

def aBos : Artist :=
  { id := 2, name := "Bo Reed".data, category := "DJ".data,
    location := "Boston, MA".data, skills := ["edm".data],
    price_min := 5000, price_max := 9000, rating := 4,
    badge := "Rising".data, avatar := "av2".data }

def chiFilters : Filters := ⟨some 2000, some ("chicago".data), none⟩

def chiResults : List (Artist × ℚ) := [(aChi, (9 : ℚ) / 10), (aBos, (4 : ℚ) / 5)]

theorem c2_witness :
    apply_filters chiResults chiFilters = [(aChi, (9 : ℚ) / 10)] ∧
    (rag_search (Except.ok chiResults) chiFilters [] 3).1 ≠ [] := by
  constructor
  · have h := (c2_apply_filters_spec chiResults chiFilters [] 3).2.2.1 (by rfl)
    rw [h]
    rfl
  · exact (c2_apply_filters_spec chiResults chiFilters [] 3).2.2.2.2
      (by simp [chiResults]) (by norm_num)

/-! ## Budget extraction (src/app.py lines 384-401)

`extract_budget_from_text` runs one `re.search` per pattern, in order.  Each
pattern of the Python source is embedded as a matcher that is tried at one
start position (`tryPatN`), together with the leftmost-search driver
(`searchPat`); for these patterns greedy matching with backtracking collapses
to maximal-run scanning, since no later literal of a pattern can also occur
inside the digit/comma run or the whitespace run it follows. -/

def isDigitComma (c : Char) : Bool := c.isDigit || c == ','

def isSpaceCh (c : Char) : Bool :=
  c == ' ' || c == '\t' || c == '\n' || c == '\r' || c == '\x0b' || c == '\x0c'

/-- Case-insensitive literal prefix, returning the rest of the input. -/
def stripPrefixCI : List Char → List Char → Option (List Char)
  | [], s => some s
  | _ :: _, [] => none
  | p :: ps, c :: cs =>
      if p.toLower == c.toLower then stripPrefixCI ps cs else none

/-- Pattern `\$(\d[\d,]*)[kK]` tried at one position; yields group 1. -/
def tryPat1 : List Char → Option (List Char)
  | '$' :: c :: rest =>
      if c.isDigit then
        match rest.span isDigitComma with
        | (run, k :: _) => if k == 'k' || k == 'K' then some (c :: run) else none
        | (_, []) => none
      else none
  | _ => none

/-- Pattern `(\d[\d,]*)[kK]\s*(?:dollar|usd|budget)?` tried at one position;
the trailing group is optional and can always match empty, so success only
requires the digit run followed by `k`/`K`. -/
def tryPat2 : List Char → Option (List Char)
  | c :: rest =>
      if c.isDigit then
        match rest.span isDigitComma with
        | (run, k :: _) => if k == 'k' || k == 'K' then some (c :: run) else none
        | (_, []) => none
      else none
  | [] => none

/-- Pattern `\$(\d[\d,]*)` tried at one position. -/
def tryPat3 : List Char → Option (List Char)
  | '$' :: c :: rest =>
      if c.isDigit then some (c :: (rest.span isDigitComma).1) else none
  | _ => none

/-- Pattern `(\d[\d,]{2,})\s*(?:dollar|usd|budget)` tried at one position. -/
def tryPat4 : List Char → Option (List Char)
  | c :: rest =>
      if c.isDigit then
        match rest.span isDigitComma with
        | (run, rest2) =>
            if run.length < 2 then none
            else
              let rest3 := (rest2.span isSpaceCh).2
              if (stripPrefixCI ("dollar".data) rest3).isSome
                  || (stripPrefixCI ("usd".data) rest3).isSome
                  || (stripPrefixCI ("budget".data) rest3).isSome
              then some (c :: run) else none
      else none
  | [] => none

/-- Tail `\s*\$?(\d[\d,]*)` of pattern 5. -/
def pat5Tail (l : List Char) : Option (List Char) :=
  let l1 := (l.span isSpaceCh).2
  let l2 := match l1 with
    | '$' :: r => r
    | _ => l1
  match l2 with
  | c :: rest => if c.isDigit then some (c :: (rest.span isDigitComma).1) else none
  | [] => none

/-- Pattern `budget\s+(?:of|is|:)?\s*\$?(\d[\d,]*)` tried at one position;
the optional `of|is|:` group is tried greedily and dropped on failure. -/
def tryPat5 (s : List Char) : Option (List Char) :=
  match stripPrefixCI ("budget".data) s with
  | none => none
  | some r =>
      match r.span isSpaceCh with
      | (sp, r2) =>
          if sp.isEmpty then none
          else
            match stripPrefixCI ("of".data) r2 with
            | some r3 =>
                (match pat5Tail r3 with
                  | some g => some g
                  | none => pat5Tail r2)
            | none =>
                match stripPrefixCI ("is".data) r2 with
                | some r3 =>
                    (match pat5Tail r3 with
                      | some g => some g
                      | none => pat5Tail r2)
                | none =>
                    match r2 with
                    | ':' :: r3 =>
                        (match pat5Tail r3 with
                          | some g => some g
                          | none => pat5Tail r2)
                    | _ => pat5Tail r2

/-- `re.search`: try the pattern at every position, leftmost match wins. -/
def searchPat (f : List Char → Option (List Char)) : List Char → Option (List Char)
  | [] => f []
  | s@(_ :: rest) =>
      match f s with
      | some g => some g
      | none => searchPat f rest

/-- `int(m.group(1).replace(",", ""))`. -/
def parseGroup (g : List Char) : Nat :=
  (g.filter (fun c => c != ',')).foldl (fun n c => n * 10 + (c.toNat - '0'.toNat)) 0

/-- One iteration of the pattern loop: search, parse, apply the `k` factor,
accept only values of at least 100. -/
def runPattern (f : List Char → Option (List Char)) (is_k : Bool)
    (t : List Char) : Option Nat :=
  match searchPat f t with
  | some g =>
      let v := parseGroup g
      let v := if is_k then v * 1000 else v
      if 100 ≤ v then some v else none
  | none => none

def budgetPatterns : List ((List Char → Option (List Char)) × Bool) :=
  [(tryPat1, true), (tryPat2, true), (tryPat3, false), (tryPat4, false),
   (tryPat5, false)]

def extractGo (t : List Char) :
    List ((List Char → Option (List Char)) × Bool) → Option Nat
  | [] => none
  | p :: ps =>
      match runPattern p.1 p.2 t with
      | some v => some v
      | none => extractGo t ps

def extract_budget_from_text (t : List Char) : Option Nat :=
  extractGo t budgetPatterns

/-- All values the given pattern matches anywhere in the text (used to state
that a later occurrence of a pattern exists even when the scan ignores it). -/
def patValuesFrom (f : List Char → Option (List Char)) : List Char → List Nat
  | [] =>
      (match f [] with
        | some g => [parseGroup g]
        | none => [])
  | s@(_ :: rest) =>
      (match f s with
        | some g => parseGroup g :: patValuesFrom f rest
        | none => patValuesFrom f rest)

/-- C3 counterexample: on `"2.5k for the event"` the code returns 5000, not
the 2500 stated by the spec — the numeral pattern `\d[\d,]*` does not admit a
decimal point, so the earliest match of the `k` patterns is `"5k"`. -/
theorem c3_counterexample :
    extract_budget_from_text ("2.5k for the event".data) = some 5000 ∧
    extract_budget_from_text ("2.5k for the event".data) ≠ some 2500 := by
  constructor
  · rfl
  · decide

/-- C3 amended: the three budget-extractor vectors as the code computes them:
`"$2,500 budget"` gives 2500, `"2.5k for the event"` gives 5000 (the numeral
pattern has no decimal point, so the match is `"5k"`), and `"$50"` gives none
(50 is below the 100 floor and no other pattern matches). -/
theorem c3_amended_vectors :
    extract_budget_from_text ("$2,500 budget".data) = some 2500 ∧
    extract_budget_from_text ("2.5k for the event".data) = some 5000 ∧
    extract_budget_from_text ("$50".data) = none := by
  refine ⟨rfl, rfl, rfl⟩

/-- C6 counterexample: in `"$50 and $200"` the earliest match of pattern
`\$(\d[\d,]*)` parses to 50 < 100 and the scan does NOT continue over the rest
of the text for that pattern — although a later occurrence parses to 200 ≥ 100
under the same pattern, the extractor returns none. -/
theorem c6_counterexample :
    extract_budget_from_text ("$50 and $200".data) = none ∧
    200 ∈ patValuesFrom tryPat3 ("$50 and $200".data) ∧ 100 ≤ 200 := by
  refine ⟨rfl, by decide, by norm_num⟩

theorem runPattern_ge (f : List Char → Option (List Char)) (is_k : Bool)
    (t : List Char) (v : Nat) (h : runPattern f is_k t = some v) : 100 ≤ v := by
  unfold runPattern at h
  rcases hs : searchPat f t with _ | g <;> rw [hs] at h
  · exact absurd h (by simp)
  · dsimp only at h
    split_ifs at h <;> injection h with h2 <;> omega

theorem extractGo_none_iff (t : List Char)
    (ps : List ((List Char → Option (List Char)) × Bool)) :
    extractGo t ps = none ↔ ∀ p ∈ ps, runPattern p.1 p.2 t = none := by
  induction ps with
  | nil => simp [extractGo]
  | cons p ps ih =>
      rcases h : runPattern p.1 p.2 t with _ | v
      · simp only [extractGo, h]
        rw [ih]
        constructor
        · intro hall q hq
          rcases List.mem_cons.mp hq with rfl | hq2
          · exact h
          · exact hall q hq2
        · intro hall q hq
          exact hall q (List.mem_cons_of_mem _ hq)
      · simp only [extractGo, h]
        constructor
        · intro hcon
          exact absurd hcon (by simp)
        · intro hall
          have h2 := hall p (List.mem_cons_self _ _)
          rw [h2] at h
          exact absurd h (by simp)

/-- C6 amended: a match parsing below 100 is discarded and the scan proceeds
to the NEXT pattern (one search per pattern; the same pattern is not retried
later in the text); every returned value is at least 100, and the result is
absent exactly when no pattern's leftmost search yields a value of 100 or
more. -/
theorem c6_amended (t : List Char) (v : Nat) :
    (extract_budget_from_text t = some v → 100 ≤ v) ∧
    (extract_budget_from_text t = none ↔
      ∀ p ∈ budgetPatterns, runPattern p.1 p.2 t = none) := by
  constructor
  · unfold extract_budget_from_text
    generalize budgetPatterns = ps
    induction ps with
    | nil => simp [extractGo]
    | cons p ps ih =>
        rcases h : runPattern p.1 p.2 t with _ | w
        · simpa [extractGo, h] using ih
        · simp only [extractGo, h]
          intro hv
          injection hv with hv
          exact hv ▸ runPattern_ge p.1 p.2 t w h
  · exact extractGo_none_iff t budgetPatterns

theorem c6_witness : 100 ≤ 500 ∧
    (extract_budget_from_text ("no numerals here".data) = none ↔
      ∀ p ∈ budgetPatterns,
        runPattern p.1 p.2 ("no numerals here".data) = none) :=
  ⟨(c6_amended ("$500".data) 500).1 rfl,
   (c6_amended ("no numerals here".data) 0).2⟩

/-! ## Event-type detection (src/app.py lines 366-382) -/

def kwWedding : List (List Char) :=
  ["wedding".data, "marriage".data, "bride".data, "groom".data, "nuptial".data]

def kwCorporate : List (List Char) :=
  ["corporate".data, "company".data, "office".data, "conference".data,
   "business".data, "launch".data, "product launch".data]

def kwBirthday : List (List Char) :=
  ["birthday".data, "bday".data, "birth day".data]

def kwFestival : List (List Char) :=
  ["festival".data, "fest".data, "music festival".data]

def kwGala : List (List Char) :=
  ["gala".data, "charity".data, "fundraiser".data, "award".data,
   "black tie".data]

def kwConcert : List (List Char) :=
  ["concert".data, "live show".data, "performance night".data]

def kwParty : List (List Char) :=
  ["party".data, "celebration".data, "get together".data, "house party".data]

/-- Python `any(w in t for w in ws)`. -/
def anyKw (t : List Char) (ws : List (List Char)) : Bool :=
  ws.any (fun w => containsSub w t)

def detect_event_type (text : List Char) : List Char :=
  let t := lowerL text
  if anyKw t kwWedding then "wedding".data
  else if anyKw t kwCorporate then "corporate".data
  else if anyKw t kwBirthday then "birthday".data
  else if anyKw t kwFestival then "festival".data
  else if anyKw t kwGala then "gala".data
  else if anyKw t kwConcert then "concert".data
  else if anyKw t kwParty then "party".data
  else "default".data

/-- The classifier as the spec words it: an ordered decision table in the
priority order wedding > corporate > birthday > festival > gala > concert >
party, first matching keyword set wins, no match yields "default". -/
def EVENT_KEYWORD_TABLE : List (List (List Char) × List Char) :=
  [(kwWedding, "wedding".data), (kwCorporate, "corporate".data),
   (kwBirthday, "birthday".data), (kwFestival, "festival".data),
   (kwGala, "gala".data), (kwConcert, "concert".data),
   (kwParty, "party".data)]

def firstMatchType (t : List Char) :
    List (List (List Char) × List Char) → List Char
  | [] => "default".data
  | e :: rest => if anyKw t e.1 then e.2 else firstMatchType t rest

def detect_event_type_spec (text : List Char) : List Char :=
  firstMatchType (lowerL text) EVENT_KEYWORD_TABLE

/-- C7: `detect_event_type` is exactly the first-match scan of the fixed
keyword table in the priority order wedding > corporate > birthday > festival
> gala > concert > party with "default" when nothing matches, and in
particular "planning our corporate wedding party" classifies as "wedding". -/
theorem c7_detect_priority :
    (∀ text : List Char, detect_event_type text = detect_event_type_spec text) ∧
    detect_event_type ("planning our corporate wedding party".data)
      = ("wedding".data) :=
  ⟨fun _ => rfl, by decide⟩

/-! ## Event-planner tables (src/app.py lines 195-364) -/

def weddingTemplate : List (List Char × ℚ) :=
  [("💐 Venue & Decor".data, 0.30), ("🍽️ Catering & Drinks".data, 0.25),
   ("🎵 Entertainment".data, 0.20), ("📸 Photography & Video".data, 0.10),
   ("💐 Flowers & Styling".data, 0.07), ("💌 Invitations & Misc".data, 0.05),
   ("🛡️ Contingency Buffer".data, 0.03)]

def corporateTemplate : List (List Char × ℚ) :=
  [("🏛️ Venue & AV Setup".data, 0.35), ("🍽️ Catering".data, 0.25),
   ("🎵 Entertainment".data, 0.15), ("📸 Photography/Video".data, 0.10),
   ("🎨 Branding & Signage".data, 0.08), ("🚚 Logistics & Misc".data, 0.07)]

def birthdayTemplate : List (List Char × ℚ) :=
  [("🏛️ Venue".data, 0.25), ("🍕 Food & Drinks".data, 0.30),
   ("🎵 Entertainment".data, 0.20), ("📸 Photography".data, 0.08),
   ("🎂 Cake & Desserts".data, 0.10), ("🎈 Decorations".data, 0.07)]

def festivalTemplate : List (List Char × ℚ) :=
  [("🎤 Stage & Sound".data, 0.30), ("🎵 Artists/Performers".data, 0.30),
   ("🚨 Security & Staffing".data, 0.15), ("📣 Marketing".data, 0.10),
   ("🍔 Food Vendors".data, 0.10), ("🚚 Logistics".data, 0.05)]

def partyTemplate : List (List Char × ℚ) :=
  [("🏛️ Venue".data, 0.25), ("🍕 Food & Drinks".data, 0.35),
   ("🎵 Entertainment".data, 0.20), ("📸 Photography".data, 0.08),
   ("🎈 Decorations".data, 0.12)]

def galaTemplate : List (List Char × ℚ) :=
  [("🏛️ Venue & Ambiance".data, 0.30), ("🍽️ Catering (Fine Dining)".data, 0.28),
   ("🎵 Entertainment".data, 0.18), ("📸 Photography/Video".data, 0.10),
   ("💐 Flowers & Styling".data, 0.08), ("💌 Invitations & Misc".data, 0.06)]

def concertTemplate : List (List Char × ℚ) :=
  [("🎤 Artist Booking".data, 0.40), ("🏛️ Venue & Stage".data, 0.25),
   ("🔊 Sound & Lighting".data, 0.15), ("📣 Marketing & Tickets".data, 0.10),
   ("🚨 Security & Staff".data, 0.07), ("🚚 Logistics".data, 0.03)]

def defaultTemplate : List (List Char × ℚ) :=
  [("🏛️ Venue".data, 0.30), ("🍽️ Catering".data, 0.25),
   ("🎵 Entertainment".data, 0.20), ("📸 Photography".data, 0.10),
   ("🎈 Decorations".data, 0.08), ("🚚 Miscellaneous".data, 0.07)]

def BUDGET_TEMPLATES : List (List Char × List (List Char × ℚ)) :=
  [("wedding".data, weddingTemplate), ("corporate".data, corporateTemplate),
   ("birthday".data, birthdayTemplate), ("festival".data, festivalTemplate),
   ("party".data, partyTemplate), ("gala".data, galaTemplate),
   ("concert".data, concertTemplate), ("default".data, defaultTemplate)]

def weddingTimeline : List (List Char × List Char) :=
  [("12–18 Months Before".data, "Book venue & set budget. Begin wedding planning.".data),
   ("9–12 Months Before".data, "Book entertainment (singer, DJ, band) & photographer.".data),
   ("6–9 Months Before".data, "Finalize catering, florals, send save-the-dates.".data),
   ("3–6 Months Before".data, "Book hair/makeup, confirm all vendors.".data),
   ("1–2 Months Before".data, "Final fittings, rehearsal dinner, finalize seating.".data),
   ("1 Week Before".data, "Confirm all bookings, prepare payments, final run-through.".data),
   ("Day Of 💍".data, "Arrive early, coordinate vendors — enjoy your day!".data)]

def corporateTimeline : List (List Char × List Char) :=
  [("3–6 Months Before".data, "Define objectives, set budget, secure venue.".data),
   ("2–3 Months Before".data, "Book speakers/entertainment, plan catering, send invites.".data),
   ("6–8 Weeks Before".data, "Confirm AV setup, branding materials, agenda.".data),
   ("2–4 Weeks Before".data, "Send reminders, confirm headcount, brief all vendors.".data),
   ("1 Week Before".data, "Run tech checks, prepare materials, confirm logistics.".data),
   ("Day Of 🏢".data, "Arrive 2h early, setup registration, welcome attendees.".data)]

def birthdayTimeline : List (List Char × List Char) :=
  [("6–8 Weeks Before".data, "Choose theme, book venue, estimate guest count.".data),
   ("4–6 Weeks Before".data, "Book entertainment, send invitations, plan menu.".data),
   ("2–4 Weeks Before".data, "Order cake, confirm vendors, plan decorations.".data),
   ("1 Week Before".data, "Get RSVPs, confirm final numbers, prepare playlist.".data),
   ("Day Of 🎂".data, "Set up early, welcome guests — have an amazing time!".data)]

def festivalTimeline : List (List Char × List Char) :=
  [("6–12 Months Before".data, "Secure permits, book venue, finalize lineup budget.".data),
   ("4–6 Months Before".data, "Book headlining artists, launch ticket sales.".data),
   ("2–4 Months Before".data, "Book supporting acts, confirm food vendors, marketing.".data),
   ("4–8 Weeks Before".data, "Finalize stage plan, security briefing, volunteer training.".data),
   ("1–2 Weeks Before".data, "Load-in schedule, final checks, media accreditation.".data),
   ("Day Of 🎪".data, "Gates open — enjoy the show!".data)]

def partyTimeline : List (List Char × List Char) :=
  [("4–6 Weeks Before".data, "Book venue and entertainment.".data),
   ("2–4 Weeks Before".data, "Send invites, finalize catering and decorations.".data),
   ("1 Week Before".data, "Confirm RSVPs and vendor headcounts.".data),
   ("Day Of 🥂".data, "Set up early, welcome guests — party on!".data)]

def galaTimeline : List (List Char × List Char) :=
  [("4–6 Months Before".data, "Book venue, set gala theme, form planning committee.".data),
   ("2–4 Months Before".data, "Book entertainment, finalize catering, send invitations.".data),
   ("4–8 Weeks Before".data, "Confirm all vendors, plan program & speeches.".data),
   ("1–2 Weeks Before".data, "Final RSVP count, seating plan, briefing vendors.".data),
   ("Day Of ✨".data, "Arrive early for setup — make it a night to remember!".data)]

def defaultTimeline : List (List Char × List Char) :=
  [("6–8 Weeks Before".data, "Book venue and set overall budget.".data),
   ("4–6 Weeks Before".data, "Book entertainment and catering, send invites.".data),
   ("2–4 Weeks Before".data, "Confirm vendors, finalize guest list.".data),
   ("1 Week Before".data, "Confirm all bookings and logistics.".data),
   ("Day Of ✨".data, "Arrive early and enjoy!".data)]

def EVENT_TIMELINES : List (List Char × List (List Char × List Char)) :=
  [("wedding".data, weddingTimeline), ("corporate".data, corporateTimeline),
   ("birthday".data, birthdayTimeline), ("festival".data, festivalTimeline),
   ("party".data, partyTimeline), ("gala".data, galaTimeline),
   ("default".data, defaultTimeline)]

def weddingCats : List (List Char) :=
  ["Singer".data, "Musician".data, "Photographer".data, "DJ".data,
   "Dancer".data, "Painter".data]

def corporateCats : List (List Char) :=
  ["Performer".data, "DJ".data, "Musician".data, "Photographer".data,
   "Singer".data]

def birthdayCats : List (List Char) :=
  ["DJ".data, "Performer".data, "Musician".data, "Photographer".data]

def festivalCats : List (List Char) :=
  ["Singer".data, "DJ".data, "Dancer".data, "Musician".data, "Performer".data]

def partyCats : List (List Char) :=
  ["DJ".data, "Musician".data, "Performer".data, "Photographer".data]

def galaCats : List (List Char) :=
  ["Singer".data, "Musician".data, "Photographer".data, "Dancer".data,
   "Painter".data]

def concertCats : List (List Char) :=
  ["Singer".data, "DJ".data, "Musician".data, "Dancer".data]

def defaultCats : List (List Char) :=
  ["Singer".data, "DJ".data, "Musician".data, "Photographer".data,
   "Performer".data]

def ARTIST_CATEGORY_FOR_EVENT : List (List Char × List (List Char)) :=
  [("wedding".data, weddingCats), ("corporate".data, corporateCats),
   ("birthday".data, birthdayCats), ("festival".data, festivalCats),
   ("party".data, partyCats), ("gala".data, galaCats),
   ("concert".data, concertCats), ("default".data, defaultCats)]

def weddingTips : List (List Char) :=
  ["📅 Book vendors at least 12 months ahead for peak wedding season.".data,
   "💰 Keep 5–10% of budget as emergency buffer — always.".data,
   "👤 A day-of coordinator saves stress and ensures everything runs on time.".data]

def corporateTips : List (List Char) :=
  ["🎯 Define your KPIs before booking entertainment — align with event goals.".data,
   "📹 Record key sessions for post-event ROI content marketing.".data,
   "🎮 Interactive entertainment (magicians, live painters) boosts engagement 40%.".data]

def birthdayTips : List (List Char) :=
  ["🎵 Book DJ or entertainer at least 4–6 weeks ahead.".data,
   "🎁 Surprise elements (flash mob, live singer reveal) create lasting memories.".data,
   "🍕 Catering quality = ~30% of overall guest experience.".data]

def festivalTips : List (List Char) :=
  ["📋 Secure all permits before any public announcements.".data,
   "☔ Always have a rain contingency plan — outdoor events depend on it.".data,
   "🏥 On-site medical team is non-negotiable for large outdoor festivals.".data]

def partyTips : List (List Char) :=
  ["🎶 Great music = great party. Invest in a good DJ or live musician.".data,
   "🥂 Over-cater on drinks by 15% — you\x27ll thank yourself later.".data,
   "📸 Even a casual photographer captures priceless memories.".data]

def galaTips : List (List Char) :=
  ["✨ Invest in lighting — it transforms any venue for a fraction of cost.".data,
   "🎤 A professional emcee keeps the program flowing smoothly.".data,
   "💌 Physical invitations for a gala elevate the guest experience.".data]

def defaultTips : List (List Char) :=
  ["📋 Always have a backup plan for key vendors.".data,
   "✅ Confirm all bookings 1 week before the event.".data,
   "💰 Keep a contingency budget of at least 5–10%.".data]

def PRO_TIPS : List (List Char × List (List Char)) :=
  [("wedding".data, weddingTips), ("corporate".data, corporateTips),
   ("birthday".data, birthdayTips), ("festival".data, festivalTips),
   ("party".data, partyTips), ("gala".data, galaTips),
   ("default".data, defaultTips)]

/-- Python `table.get(key, default)` for a string-keyed dict in insertion
order. -/
def lookupD {α : Type} (tbl : List (List Char × α)) (k : List Char) (d : α) : α :=
  match tbl.find? (fun p => p.1 == k) with
  | some p => p.2
  | none => d

/-! ## Planning engine (src/app.py lines 439-479)

Python `list.sort(key=lambda x: x["rating"], reverse=True)` is a stable sort:
descending by rating, ties keeping the original order.  It is embedded as a
stable insertion sort. -/

def insertDesc (a : Artist) : List Artist → List Artist
  | [] => [a]
  | b :: rest =>
      if a.rating < b.rating then b :: insertDesc a rest else a :: b :: rest

def sortDesc : List Artist → List Artist
  | [] => []
  | a :: rest => insertDesc a (sortDesc rest)

/-- `round(budget * pct)` over the template, in insertion order. -/
def breakdownOf (template : List (List Char × ℚ)) (budget : ℤ) :
    List (List Char × ℤ) :=
  template.map (fun p => (p.1, pyRound ((budget : ℚ) * p.2)))

/-- A breakdown label earmarks the entertainment sub-budget. -/
def entKeyMatch (k : List Char) : Bool :=
  containsSub ("entertainment".data) (lowerL k)
    || containsSub ("artist".data) (lowerL k)

/-- `next((v for k, v in breakdown.items() if ...), int(budget * 0.20))`. -/
def entBudgetOf (breakdown : List (List Char × ℤ)) (budget : ℤ) : ℤ :=
  match breakdown.find? (fun p => entKeyMatch p.1) with
  | some p => p.2
  | none => pyInt ((budget : ℚ) * 0.20)

/-- Candidate selection, stable descending sort, top 3, and the widening step
when fewer than 2 preferred-category candidates survive. -/
def planShortlist (artists : List Artist) (pref_cats : List (List Char))
    (ent_budget : ℤ) : List Artist :=
  let candidates :=
    sortDesc (artists.filter (fun a =>
      decide ((a.price_min : ℤ) ≤ ent_budget) && pref_cats.contains a.category))
  let top_artists := candidates.take 3
  if top_artists.length < 2 then
    let extras :=
      sortDesc (artists.filter (fun a =>
        decide ((a.price_min : ℤ) ≤ ent_budget) && decide (a ∉ top_artists)))
    (top_artists ++ extras).take 3
  else top_artists

structure EventPlan where
  event_name : List Char
  event_type : List Char
  total_budget : ℤ
  breakdown : List (List Char × ℤ)
  timeline : List (List Char × List Char)
  tips : List (List Char)
  artists : List Artist
  entertainment_budget : ℤ

def generate_event_plan (event_name : List Char) (budget : ℤ)
    (query : List Char) (artists : List Artist) : EventPlan :=
  let event_type := detect_event_type (query ++ [' '] ++ event_name)
  let template := lookupD BUDGET_TEMPLATES event_type defaultTemplate
  let timeline := lookupD EVENT_TIMELINES event_type defaultTimeline
  let tips := lookupD PRO_TIPS event_type defaultTips
  let pref_cats := lookupD ARTIST_CATEGORY_FOR_EVENT event_type defaultCats
  let breakdown := breakdownOf template budget
  let ent_budget := entBudgetOf breakdown budget
  let top_artists := planShortlist artists pref_cats ent_budget
  { event_name := event_name, event_type := event_type,
    total_budget := budget, breakdown := breakdown, timeline := timeline,
    tips := tips, artists := top_artists, entertainment_budget := ent_budget }

/-! ### Lemmas about the stable descending sort -/

theorem mem_insertDesc {a x : Artist} {l : List Artist} :
    a ∈ insertDesc x l ↔ a = x ∨ a ∈ l := by
  induction l with
  | nil => simp [insertDesc]
  | cons b rest ih =>
      unfold insertDesc
      split_ifs with h
      · simp [ih]
        tauto
      · simp [List.mem_cons]

theorem mem_sortDesc {a : Artist} {l : List Artist} :
    a ∈ sortDesc l ↔ a ∈ l := by
  induction l with
  | nil => simp [sortDesc]
  | cons b rest ih =>
      simp [sortDesc, mem_insertDesc, ih]

theorem length_insertDesc (x : Artist) (l : List Artist) :
    (insertDesc x l).length = l.length + 1 := by
  induction l with
  | nil => rfl
  | cons b rest ih =>
      unfold insertDesc
      split_ifs with h
      · simp [ih]
      · simp

theorem length_sortDesc (l : List Artist) : (sortDesc l).length = l.length := by
  induction l with
  | nil => rfl
  | cons b rest ih =>
      simp [sortDesc, length_insertDesc, ih]

theorem insertDesc_pairwise {x : Artist} {l : List Artist}
    (h : l.Pairwise (fun p q => q.rating ≤ p.rating)) :
    (insertDesc x l).Pairwise (fun p q => q.rating ≤ p.rating) := by
  induction l with
  | nil => simp [insertDesc]
  | cons b rest ih =>
      rcases List.pairwise_cons.mp h with ⟨hb, hrest⟩
      unfold insertDesc
      split_ifs with hlt
      · refine List.pairwise_cons.mpr ⟨?_, ih hrest⟩
        intro y hy
        rcases mem_insertDesc.mp hy with rfl | hy2
        · exact le_of_lt hlt
        · exact hb y hy2
      · refine List.pairwise_cons.mpr ⟨?_, h⟩
        intro y hy
        rcases List.mem_cons.mp hy with rfl | hy2
        · exact le_of_not_lt hlt
        · exact le_trans (hb y hy2) (le_of_not_lt hlt)

theorem sortDesc_pairwise (l : List Artist) :
    (sortDesc l).Pairwise (fun p q => q.rating ≤ p.rating) := by
  induction l with
  | nil => simp [sortDesc]
  | cons b rest ih => exact insertDesc_pairwise ih

theorem filter_rating_insertDesc (x : Artist) (l : List Artist) (r : ℚ) :
    (insertDesc x l).filter (fun a => a.rating == r)
      = if x.rating = r then x :: l.filter (fun a => a.rating == r)
        else l.filter (fun a => a.rating == r) := by
  induction l with
  | nil =>
      by_cases hx : x.rating = r <;>
        simp [insertDesc, List.filter_cons, hx]
  | cons b rest ih =>
      by_cases hlt : x.rating < b.rating
      · simp only [insertDesc]
        rw [if_pos hlt]
        by_cases hb : b.rating = r
        · have hx : ¬ x.rating = r := by
            intro hx
            rw [hx, hb] at hlt
            exact lt_irrefl r hlt
          simp [List.filter_cons, hb, hx, ih]
        · by_cases hx : x.rating = r <;>
            simp [List.filter_cons, hb, hx, ih]
      · simp only [insertDesc]
        rw [if_neg hlt]
        by_cases hx : x.rating = r <;>
          simp [List.filter_cons, hx]

theorem filter_rating_sortDesc (l : List Artist) (r : ℚ) :
    (sortDesc l).filter (fun a => a.rating == r)
      = l.filter (fun a => a.rating == r) := by
  induction l with
  | nil => rfl
  | cons b rest ih =>
      simp only [sortDesc]
      rw [filter_rating_insertDesc]
      by_cases h : b.rating = r
      · rw [if_pos h, ih, List.filter_cons]
        simp [h]
      · rw [if_neg h, ih, List.filter_cons]
        simp [h]

/-! ### Lemmas about the provider shortlist -/

theorem planShortlist_length_le (artists : List Artist)
    (pref_cats : List (List Char)) (ent_budget : ℤ) :
    (planShortlist artists pref_cats ent_budget).length ≤ 3 := by
  simp only [planShortlist]
  split
  · rw [List.length_take]
    omega
  · rw [List.length_take]
    omega

theorem planShortlist_price (artists : List Artist)
    (pref_cats : List (List Char)) (ent_budget : ℤ) :
    ∀ a ∈ planShortlist artists pref_cats ent_budget,
      (a.price_min : ℤ) ≤ ent_budget := by
  simp only [planShortlist]
  split
  · intro a ha
    have ha2 := List.take_subset 3 _ ha
    rcases List.mem_append.mp ha2 with h1 | h1
    · have h2 := List.take_subset 3 _ h1
      have h3 := mem_sortDesc.mp h2
      have h4 := (List.mem_filter.mp h3).2
      simp at h4
      exact h4.1
    · have h3 := mem_sortDesc.mp h1
      have h4 := (List.mem_filter.mp h3).2
      simp at h4
      exact h4.1
  · intro a ha
    have h2 := List.take_subset 3 _ ha
    have h3 := mem_sortDesc.mp h2
    have h4 := (List.mem_filter.mp h3).2
    simp at h4
    exact h4.1

theorem planShortlist_of_two_le (artists : List Artist)
    (pref_cats : List (List Char)) (ent_budget : ℤ)
    (h2 : 2 ≤ (artists.filter (fun a =>
      decide ((a.price_min : ℤ) ≤ ent_budget)
        && pref_cats.contains a.category)).length) :
    planShortlist artists pref_cats ent_budget
      = (sortDesc (artists.filter (fun a =>
          decide ((a.price_min : ℤ) ≤ ent_budget)
            && pref_cats.contains a.category))).take 3 := by
  simp only [planShortlist]
  have hc : ¬ ((sortDesc (artists.filter (fun a =>
      decide ((a.price_min : ℤ) ≤ ent_budget)
        && pref_cats.contains a.category))).take 3).length < 2 := by
    rw [List.length_take, length_sortDesc]
    omega
  rw [if_neg hc]

/-! ## C4/C5/C9/C10: claims about the planning engine -/

theorem lk_wedding_template :
    lookupD BUDGET_TEMPLATES ("wedding".data) defaultTemplate
      = weddingTemplate := rfl

theorem lk_wedding_cats :
    lookupD ARTIST_CATEGORY_FOR_EVENT ("wedding".data) defaultCats
      = weddingCats := rfl

theorem wedding_breakdown_find :
    (breakdownOf weddingTemplate 20000).find? (fun p => entKeyMatch p.1)
      = some ("🎵 Entertainment".data,
          pyRound (((20000 : ℤ) : ℚ) * 0.20)) := rfl

theorem wedding_ent_20000 :
    entBudgetOf (breakdownOf weddingTemplate 20000) 20000 = 4000 := by
  have h1 : ((20000 : ℤ) : ℚ) * 0.20 = ((4000 : ℤ) : ℚ) := by norm_num
  simp only [entBudgetOf, wedding_breakdown_find]
  rw [h1, pyRound_intCast]

theorem wedding_plan_fields (event_name query : List Char)
    (catalog : List Artist)
    (h : detect_event_type (query ++ [' '] ++ event_name) = ("wedding".data)) :
    (generate_event_plan event_name 20000 query catalog).entertainment_budget
        = 4000
      ∧ (generate_event_plan event_name 20000 query catalog).artists
        = planShortlist catalog weddingCats 4000 := by
  constructor
  · simp only [generate_event_plan, h, lk_wedding_template]
    exact wedding_ent_20000
  · simp only [generate_event_plan, h]
    congr 1
    show entBudgetOf (breakdownOf (lookupD BUDGET_TEMPLATES ("wedding".data)
      defaultTemplate) 20000) 20000 = 4000
    rw [lk_wedding_template]
    exact wedding_ent_20000

/-- The wedding candidate pool under the 4000 entertainment sub-budget. -/
def weddingCands (catalog : List Artist) : List Artist :=
  catalog.filter (fun a =>
    decide ((a.price_min : ℤ) ≤ 4000) && weddingCats.contains a.category)

/-- C4 amended: for a wedding plan with total budget 20000 the entertainment
sub-budget is 4000 and, for every catalog, the shortlist has at most 3 entries
each with price_min at most 4000; when at least two providers match the
wedding preferred categories under that ceiling (so the widening step of the
source is not taken), the shortlist is additionally sorted by descending
rating with ties preserving catalog order.  (The unconditional sortedness of
the original claim fails when widening appends a higher-rated non-preferred
provider — see the counterexample.) -/
theorem c4_amended (event_name query : List Char) (catalog : List Artist)
    (h : detect_event_type (query ++ [' '] ++ event_name) = ("wedding".data)) :
    (generate_event_plan event_name 20000 query catalog).entertainment_budget
        = 4000 ∧
    (generate_event_plan event_name 20000 query catalog).artists.length ≤ 3 ∧
    (∀ a ∈ (generate_event_plan event_name 20000 query catalog).artists,
      (a.price_min : ℤ) ≤ 4000) ∧
    (2 ≤ (weddingCands catalog).length →
      ((generate_event_plan event_name 20000 query catalog).artists.Pairwise
          (fun p q => q.rating ≤ p.rating) ∧
        ∀ r : ℚ, ∃ tail,
          (weddingCands catalog).filter (fun a => a.rating == r)
            = ((generate_event_plan event_name 20000 query catalog).artists.filter
                (fun a => a.rating == r)) ++ tail)) := by
  obtain ⟨hent, hart⟩ := wedding_plan_fields event_name query catalog h
  refine ⟨hent, ?_, ?_, ?_⟩
  · rw [hart]
    exact planShortlist_length_le _ _ _
  · rw [hart]
    exact planShortlist_price _ _ _
  · intro h2
    have hplan : planShortlist catalog weddingCats 4000
        = (sortDesc (weddingCands catalog)).take 3 :=
      planShortlist_of_two_le catalog weddingCats 4000 h2
    rw [hart, hplan]
    constructor
    · exact List.Pairwise.sublist (List.take_sublist 3 _) (sortDesc_pairwise _)
    · intro r
      refine ⟨((sortDesc (weddingCands catalog)).drop 3).filter
        (fun a => a.rating == r), ?_⟩
      calc (weddingCands catalog).filter (fun a => a.rating == r)
          = (sortDesc (weddingCands catalog)).filter (fun a => a.rating == r) :=
            (filter_rating_sortDesc _ r).symm
        _ = (((sortDesc (weddingCands catalog)).take 3)
              ++ ((sortDesc (weddingCands catalog)).drop 3)).filter
                (fun a => a.rating == r) := by
            rw [List.take_append_drop]
        _ = ((sortDesc (weddingCands catalog)).take 3).filter
              (fun a => a.rating == r)
            ++ ((sortDesc (weddingCands catalog)).drop 3).filter
              (fun a => a.rating == r) := by
            rw [List.filter_append]

/-! Concrete catalogs for the C4 counterexample and witness.  Ratings are
integer-valued rationals so that records evaluate in the kernel. -/

def cexSinger : Artist :=
  { id := 1, name := "Sia Low".data, category := "Singer".data,
    location := "Chicago".data, skills := [], price_min := 1000,
    price_max := 2000, rating := 3, badge := "".data, avatar := "".data }

def cexPerformer : Artist :=
  { id := 2, name := "Pax High".data, category := "Performer".data,
    location := "Boston".data, skills := [], price_min := 1000,
    price_max := 2000, rating := 5, badge := "".data, avatar := "".data }

def cexCatalog : List Artist := [cexSinger, cexPerformer]

/-- C4 counterexample: with one preferred-category candidate (a Singer, rating
3) and one affordable non-preferred provider (a Performer, rating 5), the
widening step yields the shortlist [Singer 3, Performer 5], which is NOT
sorted by descending rating — refuting the claim's "for every catalog
contents". -/
theorem c4_counterexample :
    ¬ ((generate_event_plan ("wedding day".data) 20000
        ("plan my wedding".data) cexCatalog).artists.Pairwise
          (fun p q => q.rating ≤ p.rating)) := by
  have h : detect_event_type (("plan my wedding".data) ++ [' ']
      ++ ("wedding day".data)) = ("wedding".data) := by decide
  obtain ⟨hent, hart⟩ :=
    wedding_plan_fields ("wedding day".data) ("plan my wedding".data)
      cexCatalog h
  rw [hart]
  have hshort : planShortlist cexCatalog weddingCats 4000
      = [cexSinger, cexPerformer] := rfl
  rw [hshort]
  intro hpw
  have h5 := (List.pairwise_cons.mp hpw).1 cexPerformer (by simp)
  norm_num [cexSinger, cexPerformer] at h5

def wSinger1 : Artist :=
  { id := 1, name := "Wes One".data, category := "Singer".data,
    location := "Dallas".data, skills := [], price_min := 1000,
    price_max := 2000, rating := 5, badge := "".data, avatar := "".data }

def wSinger2 : Artist :=
  { id := 2, name := "Wes Two".data, category := "Singer".data,
    location := "Miami".data, skills := [], price_min := 1200,
    price_max := 2500, rating := 4, badge := "".data, avatar := "".data }

def wCatalog : List Artist := [wSinger1, wSinger2]

theorem c4_witness :
    (generate_event_plan ("day".data) 20000 ("wedding".data)
        wCatalog).entertainment_budget = 4000 ∧
    (generate_event_plan ("day".data) 20000 ("wedding".data)
        wCatalog).artists.Pairwise (fun p q => q.rating ≤ p.rating) := by
  have h : detect_event_type (("wedding".data) ++ [' '] ++ ("day".data))
      = ("wedding".data) := by decide
  have hlen : 2 ≤ (weddingCands wCatalog).length := by decide
  exact ⟨(c4_amended ("day".data) ("wedding".data) wCatalog h).1,
    ((c4_amended ("day".data) ("wedding".data) wCatalog h).2.2.2 hlen).1⟩

/-! ### C5: template weights sum to 1 and the rounding-drift bound -/

def templateSum (t : List (List Char × ℚ)) : ℚ := (t.map Prod.snd).sum

theorem budget_templates_sum_one :
    ∀ e ∈ BUDGET_TEMPLATES, templateSum e.2 = 1 := by
  intro e he
  simp only [BUDGET_TEMPLATES, List.mem_cons, List.not_mem_nil, or_false] at he
  rcases he with rfl | rfl | rfl | rfl | rfl | rfl | rfl | rfl <;>
    norm_num [templateSum, weddingTemplate, corporateTemplate,
      birthdayTemplate, festivalTemplate, partyTemplate, galaTemplate,
      concertTemplate, defaultTemplate]

theorem lookup_template_sum (et : List Char) :
    templateSum (lookupD BUDGET_TEMPLATES et defaultTemplate) = 1 := by
  unfold lookupD
  rcases hf : BUDGET_TEMPLATES.find? (fun p => p.1 == et) with _ | p
  · simp only [hf]
    norm_num [templateSum, defaultTemplate]
  · simp only [hf]
    exact budget_templates_sum_one p (List.mem_of_find?_eq_some hf)

theorem breakdown_drift (B : ℤ) (t : List (List Char × ℚ)) :
    |((breakdownOf t B).map (fun p => ((p.2 : ℚ)))).sum
        - (B : ℚ) * templateSum t|
      ≤ (t.length : ℚ) / 2 := by
  induction t with
  | nil => simp [breakdownOf, templateSum]
  | cons a t ih =>
      have h1 := pyRound_abs ((B : ℚ) * a.2)
      have expand : ((breakdownOf (a :: t) B).map (fun p => ((p.2 : ℚ)))).sum
          = (pyRound ((B : ℚ) * a.2) : ℚ)
            + ((breakdownOf t B).map (fun p => ((p.2 : ℚ)))).sum := by
        simp [breakdownOf]
      have expandT : templateSum (a :: t) = a.2 + templateSum t := by
        simp [templateSum]
      have expandL : ((a :: t).length : ℚ) = (t.length : ℚ) + 1 := by
        push_cast [List.length_cons]
        ring
      rw [expand, expandT, expandL]
      have h3 : (pyRound ((B : ℚ) * a.2) : ℚ)
            + ((breakdownOf t B).map (fun p => ((p.2 : ℚ)))).sum
            - (B : ℚ) * (a.2 + templateSum t)
          = ((pyRound ((B : ℚ) * a.2) : ℚ) - (B : ℚ) * a.2)
            + (((breakdownOf t B).map (fun p => ((p.2 : ℚ)))).sum
              - (B : ℚ) * templateSum t) := by
        ring
      rw [h3]
      have h4 := abs_add ((pyRound ((B : ℚ) * a.2) : ℚ) - (B : ℚ) * a.2)
        (((breakdownOf t B).map (fun p => ((p.2 : ℚ)))).sum
          - (B : ℚ) * templateSum t)
      linarith

/-- C5: every event-type entry of the budget-weight table has weights summing
to 1 (hence within 1e-6 of 1.0), and for every event type and positive budget
B the breakdown values, each `round(B * weight)`, sum to within the template
length of B. -/
theorem c5_budget_sums :
    (∀ e ∈ BUDGET_TEMPLATES, |templateSum e.2 - 1| ≤ 1 / 1000000) ∧
    (∀ (et : List Char) (B : ℤ), 0 < B →
      |((breakdownOf (lookupD BUDGET_TEMPLATES et defaultTemplate) B).map
          (fun p => ((p.2 : ℚ)))).sum - (B : ℚ)|
        ≤ ((lookupD BUDGET_TEMPLATES et defaultTemplate).length : ℚ)) := by
  constructor
  · intro e he
    rw [budget_templates_sum_one e he]
    norm_num
  · intro et B hB
    have h1 := breakdown_drift B (lookupD BUDGET_TEMPLATES et defaultTemplate)
    rw [lookup_template_sum et, mul_one] at h1
    have h2 : (0 : ℚ)
        ≤ ((lookupD BUDGET_TEMPLATES et defaultTemplate).length : ℚ) :=
      Nat.cast_nonneg _
    linarith

theorem c5_witness :
    |templateSum weddingTemplate - 1| ≤ 1 / 1000000 ∧
    |((breakdownOf (lookupD BUDGET_TEMPLATES ("wedding".data) defaultTemplate)
          100).map (fun p => ((p.2 : ℚ)))).sum - ((100 : ℤ) : ℚ)|
      ≤ ((lookupD BUDGET_TEMPLATES ("wedding".data) defaultTemplate).length : ℚ) :=
  ⟨c5_budget_sums.1 ("wedding".data, weddingTemplate)
      (by simp [BUDGET_TEMPLATES]),
   c5_budget_sums.2 ("wedding".data) 100 (by norm_num)⟩

/-! ### C9: "concert" has a template and preferred categories but no timeline
or tips entry, so concert plans use the default timeline and tips -/

/-- C9: `detect_event_type` returns "concert"; the budget-weight table and the
preferred-category table have a "concert" entry while the timeline and tips
tables do not; consequently every plan whose classified type is "concert" is
assembled from the concert budget breakdown together with the "default"
timeline and "default" tips. -/
theorem c9_concert_defaults :
    detect_event_type ("concert".data) = ("concert".data) ∧
    EVENT_TIMELINES.find? (fun p => p.1 == "concert".data) = none ∧
    PRO_TIPS.find? (fun p => p.1 == "concert".data) = none ∧
    BUDGET_TEMPLATES.find? (fun p => p.1 == "concert".data)
      = some ("concert".data, concertTemplate) ∧
    ARTIST_CATEGORY_FOR_EVENT.find? (fun p => p.1 == "concert".data)
      = some ("concert".data, concertCats) ∧
    (∀ (event_name : List Char) (budget : ℤ) (query : List Char)
        (catalog : List Artist),
      detect_event_type (query ++ [' '] ++ event_name) = ("concert".data) →
        (generate_event_plan event_name budget query catalog).timeline
            = defaultTimeline ∧
          (generate_event_plan event_name budget query catalog).tips
            = defaultTips ∧
          (generate_event_plan event_name budget query catalog).breakdown
            = breakdownOf concertTemplate budget) := by
  refine ⟨rfl, rfl, rfl, rfl, rfl, ?_⟩
  intro event_name budget query catalog h
  refine ⟨?_, ?_, ?_⟩ <;> simp only [generate_event_plan, h] <;> rfl

theorem c9_witness :
    (generate_event_plan ("night".data) 1000 ("concert".data) []).timeline
        = defaultTimeline ∧
      (generate_event_plan ("night".data) 1000 ("concert".data) []).tips
        = defaultTips ∧
      (generate_event_plan ("night".data) 1000 ("concert".data) []).breakdown
        = breakdownOf concertTemplate 1000 :=
  c9_concert_defaults.2.2.2.2.2 ("night".data) 1000 ("concert".data) []
    (by decide)

/-! ### C10: the entertainment fallback `int(budget * 0.20)` is unreachable -/

theorem lookup_template_mem (et : List Char) :
    lookupD BUDGET_TEMPLATES et defaultTemplate
      ∈ BUDGET_TEMPLATES.map Prod.snd := by
  unfold lookupD
  rcases hf : BUDGET_TEMPLATES.find? (fun p => p.1 == et) with _ | p
  · simp only [hf]
    simp [BUDGET_TEMPLATES]
  · simp only [hf]
    exact List.mem_map_of_mem _ (List.mem_of_find?_eq_some hf)

theorem find?_breakdownOf (t : List (List Char × ℚ)) (B : ℤ) :
    (breakdownOf t B).find? (fun p => entKeyMatch p.1)
      = (t.find? (fun p => entKeyMatch p.1)).map
          (fun p => (p.1, pyRound ((B : ℚ) * p.2))) := by
  induction t with
  | nil => rfl
  | cons a t ih =>
      have hstep : breakdownOf (a :: t) B
          = (a.1, pyRound ((B : ℚ) * a.2)) :: breakdownOf t B := rfl
      rw [hstep]
      rcases h : entKeyMatch a.1 with _ | _
      · rw [List.find?_cons_of_neg _ (by simpa using h),
          List.find?_cons_of_neg _ (by simpa using h)]
        exact ih
      · rw [List.find?_cons_of_pos _ (by simpa using h),
          List.find?_cons_of_pos _ (by simpa using h)]
        rfl

/-- C10: every entry of the budget-weight table (including "default") has a
label containing "entertainment" or "artist" (lower-cased), so for every event
type and budget the entertainment sub-budget search succeeds on the breakdown
and `generate_event_plan`'s `int(budget * 0.20)` fallback is unreachable. -/
theorem c10_ent_fallback_unreachable :
    BUDGET_TEMPLATES.all (fun e => e.2.any (fun p => entKeyMatch p.1)) = true ∧
    ∀ (et : List Char) (budget : ℤ), ∃ p,
      (breakdownOf (lookupD BUDGET_TEMPLATES et defaultTemplate) budget).find?
          (fun q => entKeyMatch q.1) = some p ∧
        entBudgetOf
            (breakdownOf (lookupD BUDGET_TEMPLATES et defaultTemplate) budget)
            budget = p.2 := by
  constructor
  · decide
  · intro et budget
    have hmem := lookup_template_mem et
    have hany : (lookupD BUDGET_TEMPLATES et defaultTemplate).any
        (fun p => entKeyMatch p.1) = true := by
      have hall : ∀ t ∈ BUDGET_TEMPLATES.map Prod.snd,
          t.any (fun p => entKeyMatch p.1) = true := by decide
      exact hall _ hmem
    have hfind : ∃ q, (lookupD BUDGET_TEMPLATES et defaultTemplate).find?
        (fun p => entKeyMatch p.1) = some q := by
      rcases hf : (lookupD BUDGET_TEMPLATES et defaultTemplate).find?
          (fun p => entKeyMatch p.1) with _ | q
      · rw [List.find?_eq_none] at hf
        rcases List.any_eq_true.mp hany with ⟨x, hx, hpx⟩
        exact absurd hpx (by simpa using hf x hx)
      · exact ⟨q, hf⟩
    rcases hfind with ⟨q, hq⟩
    refine ⟨(q.1, pyRound ((budget : ℚ) * q.2)), ?_, ?_⟩
    · rw [find?_breakdownOf, hq]
      rfl
    · simp only [entBudgetOf]
      rw [find?_breakdownOf, hq]
      rfl

/-! ## C8: the match-score percentage on provider cards
(src/app.py lines 731-737) -/

structure Card where
  id : Nat
  name : List Char
  category : List Char
  location : List Char
  rating : ℚ
  price_min : Nat
  badge : List Char
  avatar : List Char
  match_score : ℤ
deriving DecidableEq

def _format_cards (ms : List (Artist × ℚ)) : List Card :=
  ms.map (fun p =>
    { id := p.1.id, name := p.1.name, category := p.1.category,
      location := p.1.location, rating := p.1.rating,
      price_min := p.1.price_min, badge := p.1.badge, avatar := p.1.avatar,
      match_score := min (pyInt (p.2 * 100)) 99 })

/-- C8 counterexample: at similarity score 107/125 = 0.856 (inside [0, 1]) the
card carries `min(int(0.856 * 100), 99) = 85`, while the claimed formula
`min(round(0.856 * 100), 99)` gives 86 — `int()` truncates, `round` does
not. -/
theorem c8_counterexample :
    (0 : ℚ) ≤ (107 : ℚ) / 125 ∧ (107 : ℚ) / 125 ≤ 1 ∧
    (_format_cards [(aChi, (107 : ℚ) / 125)]).map (fun c => c.match_score)
      = [min (pyInt (((107 : ℚ) / 125) * 100)) 99] ∧
    min (pyInt (((107 : ℚ) / 125) * 100)) 99 = 85 ∧
    min (pyRound (((107 : ℚ) / 125) * 100)) 99 = 86 ∧
    (85 : ℤ) ≠ 86 := by
  have h1 : ((107 : ℚ) / 125) * 100 = 428 / 5 := by norm_num
  have h2 : ⌊(428 : ℚ) / 5⌋ = 85 := by
    rw [Int.floor_eq_iff]
    norm_num
  refine ⟨by norm_num, by norm_num, rfl, ?_, ?_, by norm_num⟩
  · rw [h1, pyInt_eq_floor _ (by norm_num), h2]
    norm_num
  · rw [h1, pyRound_eq_floor_add_one (428 / 5) 85 h2 (by norm_num)]
    norm_num

/-- C8 amended: for scores in [0, 1] the integer match-score percentage placed
on a provider card equals `min(floor(s * 100), 99)` — truncation via `int()`,
not `round`. -/
theorem c8_amended (ms : List (Artist × ℚ)) :
    (∀ p ∈ ms, 0 ≤ p.2 ∧ p.2 ≤ 1) →
      (_format_cards ms).map (fun c => c.match_score)
        = ms.map (fun p => min ⌊p.2 * 100⌋ 99) := by
  induction ms with
  | nil => intro _; rfl
  | cons p ps ih =>
      intro h
      have hp := h p (List.mem_cons_self _ _)
      have hps : ∀ q ∈ ps, 0 ≤ q.2 ∧ q.2 ≤ 1 :=
        fun q hq => h q (List.mem_cons_of_mem _ hq)
      have hstep : _format_cards (p :: ps)
          = { id := p.1.id, name := p.1.name, category := p.1.category,
              location := p.1.location, rating := p.1.rating,
              price_min := p.1.price_min, badge := p.1.badge,
              avatar := p.1.avatar,
              match_score := min (pyInt (p.2 * 100)) 99 }
            :: _format_cards ps := rfl
      rw [hstep, List.map_cons, List.map_cons]
      congr 1
      · show min (pyInt (p.2 * 100)) 99 = min ⌊p.2 * 100⌋ 99
        rw [pyInt_eq_floor _ (mul_nonneg hp.1 (by norm_num))]
      · exact ih hps

theorem c8_witness :
    (_format_cards [(aChi, (1 : ℚ) / 2)]).map (fun c => c.match_score)
      = [min ⌊((1 : ℚ) / 2) * 100⌋ 99] :=
  c8_amended [(aChi, (1 : ℚ) / 2)] (by
    intro p hp
    simp only [List.mem_singleton] at hp
    subst hp
    norm_num)
